import Mathlib

/-!
Verification of the conversation synchronization engine of swift-chat.

The definitions below are a shallow embedding of the `useChat` hook
(src/src/pages/Chat.tsx, second document: `loadMessages`, `uploadFile`,
`sendMessage`, `markAsSeen`, the realtime INSERT handler, the typing
presence sync handler, and `setOnNewMessage`).  Conventions:

* Timestamps (`created_at`, `Date.now()`) are modelled as `Nat`; the code
  stores ISO-8601 strings, which are ordered exactly as the instants they
  denote, so the ascending order used by the history query is `Nat.le`.
* JavaScript string operations (`trim`, `startsWith`, `split`) are
  embedded structurally over `List Char` so that every definition is
  executable by the kernel.
* Network outcomes (storage upload, durable insert, history fetch) are
  oracle parameters (`storageOk`, `insertOk`, `fetchOk`): the embedding
  is the source function applied to one fixed outcome of each await.
* Each stateful handler returns an effect record listing everything the
  source code does: the new timeline, the row handed to the durable
  insert (if any), whether `console.error` was called, and whether any
  failure signal reaches the caller.  The source `sendMessage` is an
  async function returning `Promise<void>` that neither throws nor
  returns an error value on any path, so `callerSignal` is `false` on
  every branch; the field exists so that claims about what the caller
  observes can be stated.
-/

namespace SwiftChat

/-- A row of the `messages` table, as carried by the `Message` type of the
hook (`Tables<'messages'>`).  `id` is the server identifier, or a
`temp-`-prefixed locally minted identifier while pending. -/
structure Message where
  id : String
  sender_id : String
  receiver_id : String
  text : String
  seen : Bool
  created_at : Nat
  file_url : Option String := none
  file_name : Option String := none
  file_type : Option String := none
deriving DecidableEq

/-- JavaScript truthiness test for an optional string id: `!x` is true
exactly when `x` is `undefined` or the empty string. -/
def jsFalsy : Option String → Bool
  | none => true
  | some s => decide (s = "")

/-- Remove leading and trailing whitespace from a character list. -/
def trimChars (cs : List Char) : List Char :=
  ((cs.dropWhile Char.isWhitespace).reverse.dropWhile Char.isWhitespace).reverse

/-- JavaScript `text.trim()`. -/
def jsTrim (s : String) : String :=
  ⟨trimChars s.data⟩

/-- JavaScript `id.startsWith('temp-')`, the pending-placeholder test used
by the INSERT handler. -/
def isTempId (id : String) : Bool :=
  "temp-".data.isPrefixOf id.data

/-- The locally minted identifier of an optimistic message:
`'temp-' + Date.now()`. -/
def tempId (now : Nat) : String :=
  "temp-" ++ toString now

/-- The conversation-membership test of the INSERT handler: the event
belongs to the active pair when sender and receiver match the
(local user, peer) pair in either direction. -/
def pairMatches (cur sel : String) (m : Message) : Prop :=
  (m.sender_id = cur ∧ m.receiver_id = sel) ∨
    (m.sender_id = sel ∧ m.receiver_id = cur)

instance (cur sel : String) (m : Message) : Decidable (pairMatches cur sel m) := by
  unfold pairMatches; infer_instance

/-- The timeline update of the realtime INSERT handler
(`setMessages(prev => ...)`): keep the timeline if the id is already
present, otherwise drop every `temp-` message and append the new one. -/
def reconcile (prev : List Message) (newMsg : Message) : List Message :=
  if prev.any (fun m => decide (m.id = newMsg.id)) then prev
  else prev.filter (fun m => !(isTempId m.id)) ++ [newMsg]

/-- Everything the realtime INSERT handler does for one event. -/
structure InsertEffect where
  messages : List Message
  markSeenIssued : Bool
  notified : List Message
deriving DecidableEq

/-- The realtime INSERT handler of `useChat`.  `hasCallback` records
whether `onNewMessageRef.current` is set; `notified` lists the messages
passed to that callback (in order) while processing this event. -/
def handleInsertEvent (cur sel : String) (hasCallback : Bool)
    (prev : List Message) (e : Message) : InsertEffect :=
  if pairMatches cur sel e then
    { messages := reconcile prev e
      markSeenIssued := decide (e.receiver_id = cur)
      notified := if e.sender_id ≠ cur ∧ hasCallback = true then [e] else [] }
  else
    { messages := prev, markSeenIssued := false, notified := [] }

/-- The timeline component of the realtime INSERT handler. -/
def handleInsert (cur sel : String) (prev : List Message) (e : Message) :
    List Message :=
  if pairMatches cur sel e then reconcile prev e else prev

/-- The file argument of `sendMessage` (the fields of a `File` the hook
reads). -/
structure FileUpload where
  name : String
  type : String
deriving DecidableEq

/-- The `{url, name, type}` record returned by `uploadFile` on success. -/
structure FileData where
  url : String
  name : String
  type : String
deriving DecidableEq

/-- JavaScript `name.split('.').pop()`: the part after the last dot. -/
def splitOnDot : List Char → List (List Char)
  | [] => [[]]
  | c :: rest =>
    let r := splitOnDot rest
    if c = '.' then [] :: r
    else
      match r with
      | [] => [[c]]
      | h :: t => (c :: h) :: t

/-- The extension component used to build the storage key. -/
def fileExt (name : String) : String :=
  ⟨(splitOnDot name.data).getLastD []⟩

/-- Stands for the public URL the storage collaborator derives from a
storage key (`getPublicUrl`); the exact shape is external to the core. -/
def getPublicUrl (path : String) : String :=
  "public://chat-attachments/" ++ path

/-- `uploadFile` of `useChat`: builds the storage key from the uploader id,
the clock and the original extension, attempts the storage write
(outcome `storageOk`), and returns the file data or `null`. -/
def uploadFile (cur : Option String) (file : FileUpload) (now : Nat)
    (storageOk : Bool) : Option FileData :=
  if jsFalsy cur then none
  else
    let fileName := (cur.getD "") ++ "/" ++ toString now ++ "." ++ fileExt file.name
    if storageOk then
      some { url := getPublicUrl fileName, name := file.name, type := file.type }
    else none

/-- The row handed to the durable insert (`newMessage` in the source; the
file fields are only present when upload succeeded). -/
structure InsertRow where
  sender_id : String
  receiver_id : String
  text : String
  file_url : Option String
  file_name : Option String
  file_type : Option String
deriving DecidableEq

/-- Everything one call of `sendMessage` does:  final timeline, final
`uploading` flag, whether the uploader was invoked, the optimistic
message appended (if any), the row handed to the durable insert (if
issued), whether `console.error` ran, and whether any failure signal
reaches the caller (the source resolves normally on every path). -/
structure SendResult where
  messages : List Message
  uploading : Bool
  uploadAttempted : Bool
  optimistic : Option Message
  insertPayload : Option InsertRow
  consoleError : Bool
  callerSignal : Bool
deriving DecidableEq

/-- The `fileData` local of `sendMessage`: `null` when no file was given,
otherwise the outcome of `uploadFile`. -/
def sendFileData (cur : Option String) (file : Option FileUpload) (now : Nat)
    (storageOk : Bool) : Option FileData :=
  match file with
  | none => none
  | some f => uploadFile cur f now storageOk

/-- The `newMessage` object handed to the durable insert: trimmed text,
the active pair, and the file fields only when upload succeeded. -/
def mkInsertRow (c s text : String) (fileData : Option FileData) : InsertRow :=
  { sender_id := c, receiver_id := s, text := jsTrim text,
    file_url := fileData.map (·.url),
    file_name := fileData.map (·.name),
    file_type := fileData.map (·.type) }

/-- The `optimisticMessage` appended to the timeline before the durable
write: a `temp-` identifier, the trimmed text, the active pair, seen
false, a locally minted timestamp. -/
def mkOptimistic (c s text : String) (now : Nat) (fileData : Option FileData) :
    Message :=
  { id := tempId now, sender_id := c, receiver_id := s, text := jsTrim text,
    seen := false, created_at := now,
    file_url := fileData.map (·.url),
    file_name := fileData.map (·.name),
    file_type := fileData.map (·.type) }

/-- `sendMessage` of `useChat`, for one call with the given oracle
outcomes.  `prev` is the timeline at call time, `uploading0` the
`uploading` flag at call time. -/
def sendMessage (cur sel : Option String) (text : String)
    (file : Option FileUpload) (now : Nat) (storageOk insertOk : Bool)
    (prev : List Message) (uploading0 : Bool) : SendResult :=
  if jsFalsy cur ∨ jsFalsy sel then
    { messages := prev, uploading := uploading0, uploadAttempted := false,
      optimistic := none, insertPayload := none, consoleError := false,
      callerSignal := false }
  else if jsTrim text = "" ∧ file = none then
    { messages := prev, uploading := uploading0, uploadAttempted := false,
      optimistic := none, insertPayload := none, consoleError := false,
      callerSignal := false }
  else if file.isSome = true ∧ sendFileData cur file now storageOk = none ∧
      jsTrim text = "" then
    { messages := prev, uploading := false, uploadAttempted := true,
      optimistic := none, insertPayload := none, consoleError := false,
      callerSignal := false }
  else if insertOk then
    { messages := prev ++
        [mkOptimistic (cur.getD "") (sel.getD "") text now
          (sendFileData cur file now storageOk)],
      uploading := false, uploadAttempted := file.isSome,
      optimistic := some (mkOptimistic (cur.getD "") (sel.getD "") text now
        (sendFileData cur file now storageOk)),
      insertPayload := some (mkInsertRow (cur.getD "") (sel.getD "") text
        (sendFileData cur file now storageOk)),
      consoleError := false, callerSignal := false }
  else
    { messages := (prev ++
        [mkOptimistic (cur.getD "") (sel.getD "") text now
          (sendFileData cur file now storageOk)]).filter
        (fun m => !(decide (m.id = tempId now))),
      uploading := false, uploadAttempted := file.isSome,
      optimistic := some (mkOptimistic (cur.getD "") (sel.getD "") text now
        (sendFileData cur file now storageOk)),
      insertPayload := some (mkInsertRow (cur.getD "") (sel.getD "") text
        (sendFileData cur file now storageOk)),
      consoleError := true, callerSignal := false }

/-- The per-row effect of the bulk update issued by `markAsSeen`
(`update({seen: true}).eq(sender_id, sel).eq(receiver_id, cur).eq(seen, false)`). -/
def markSeenRow (cur sel : String) (m : Message) : Message :=
  if m.sender_id = sel ∧ m.receiver_id = cur ∧ m.seen = false then
    { m with seen := true }
  else m

/-- The bulk update issued by `markAsSeen`, applied to a collection of
rows. -/
def markAsSeenUpdate (cur sel : String) (rows : List Message) : List Message :=
  rows.map (markSeenRow cur sel)

/-- The history query issued by `loadMessages`: messages of the pair in
either direction, ordered ascending by creation time. -/
def historyQuery (cur sel : String) (db : List Message) : List Message :=
  List.insertionSort (fun a b => a.created_at ≤ b.created_at)
    (db.filter (fun m => decide (pairMatches cur sel m)))

/-- The state `loadMessages` leaves behind. -/
structure LoadResult where
  messages : List Message
  loading : Bool
deriving DecidableEq

/-- `loadMessages` of `useChat`: guard on the ids, fetch the history
(outcome `fetchOk`), replace the timeline only on success, clear the
loading flag. -/
def loadMessages (cur sel : Option String) (db : List Message)
    (fetchOk : Bool) (prev : List Message) (loading0 : Bool) : LoadResult :=
  if jsFalsy cur ∨ jsFalsy sel then
    { messages := prev, loading := loading0 }
  else if fetchOk then
    { messages := historyQuery (cur.getD "") (sel.getD "") db, loading := false }
  else
    { messages := prev, loading := false }

/-- One tracked payload of the typing presence channel. -/
structure PresencePayload where
  profileId : String
  isTyping : Bool
deriving DecidableEq

/-- JavaScript `Set.add`, on a duplicate-free list model of `Set<string>`. -/
def setAdd (s : List String) (x : String) : List String :=
  if x ∈ s then s else s ++ [x]

/-- The body of the inner `forEach` of the presence sync handler: add the
id when it signals typing and is not the local user. -/
def addTyping (cur : String) (acc : List String) (p : PresencePayload) :
    List String :=
  if p.isTyping = true ∧ p.profileId ≠ cur then setAdd acc p.profileId
  else acc

/-- The presence sync handler of `useChat`: fold the snapshot
(`Object.values(state)`, one presence list per tracked key) into the
derived typing set. -/
def deriveTyping (cur : String) (state : List (List PresencePayload)) :
    List String :=
  state.foldl (fun acc presences => presences.foldl (addTyping cur) acc) []

/-- `setOnNewMessage` of `useChat`: store the callback in the single slot
(`onNewMessageRef.current = callback`), replacing whatever was there. -/
def setOnNewMessage {κ : Type} (slot : Option κ) (cb : κ) : Option κ :=
  some cb

/-- Seen-flag monotonicity of one timeline transition: a message whose
seen flag is true either survives unchanged, or no message with its
identifier remains (a removed placeholder); its flag is never reset. -/
def SeenPreserved (before after : List Message) : Prop :=
  ∀ m ∈ before, m.seen = true →
    (m ∈ after ∨ ∀ m2 ∈ after, m2.id ≠ m.id)

/-! Concrete messages used in counterexamples and witnesses. -/

/-- A committed message from A to B. -/
def msgAB : Message :=
  { id := "m1", sender_id := "A", receiver_id := "B", text := "hi",
    seen := false, created_at := 5 }

/-- A pending placeholder of local user A. -/
def pend1 : Message :=
  { id := "temp-1", sender_id := "A", receiver_id := "B", text := "one",
    seen := false, created_at := 1 }

/-- A second pending placeholder of local user A. -/
def pend2 : Message :=
  { id := "temp-2", sender_id := "A", receiver_id := "B", text := "two",
    seen := false, created_at := 2 }

/-- A committed message from A, as seen by local user B. -/
def msgFromA : Message :=
  { id := "n1", sender_id := "A", receiver_id := "B", text := "yo",
    seen := false, created_at := 3 }

/-- A message from A to B whose seen flag is already true. -/
def msgSeen : Message :=
  { id := "s1", sender_id := "A", receiver_id := "B", text := "k",
    seen := true, created_at := 4 }

/-- The insert row of the witness send of " hi " from A to B. -/
def rowHi : InsertRow :=
  { sender_id := "A", receiver_id := "B", text := "hi",
    file_url := none, file_name := none, file_type := none }

instance : IsTotal Message (fun a b => a.created_at ≤ b.created_at) :=
  ⟨fun a b => Nat.le_total a.created_at b.created_at⟩

instance : IsTrans Message (fun a b => a.created_at ≤ b.created_at) :=
  ⟨fun _ _ _ h1 h2 => Nat.le_trans h1 h2⟩

/-- C1 counterexample: with two pending placeholders in the timeline, one
matching, non-duplicate inbound event removes both of them (the handler
filters out every `temp-` id), refuting the claim that at most one
pending placeholder is removed. -/
theorem c1_counterexample :
    pairMatches "A" "B" msgAB ∧
    (¬ ∃ m ∈ [pend1, pend2], m.id = msgAB.id) ∧
    [pend1, pend2].countP (fun m => isTempId m.id) = 2 ∧
    (handleInsert "A" "B" [pend1, pend2] msgAB).countP
      (fun m => isTempId m.id) = 0 := by
  decide

/-- C1 (amended): on an inbound message-created event, the handler leaves
the timeline unchanged when the event does not belong to the active pair,
leaves it unchanged when the server identifier is already present, and
otherwise removes every pending placeholder and appends the authoritative
message at the end. -/
theorem c1_reconciliation (cur sel : String) (prev : List Message)
    (e : Message) :
    (¬ pairMatches cur sel e → handleInsert cur sel prev e = prev) ∧
    ((∃ m ∈ prev, m.id = e.id) → handleInsert cur sel prev e = prev) ∧
    (pairMatches cur sel e → (¬ ∃ m ∈ prev, m.id = e.id) →
      handleInsert cur sel prev e =
        prev.filter (fun m => !(isTempId m.id)) ++ [e]) := by
  refine ⟨fun h => by simp [handleInsert, h], fun h => ?_, fun hp hd => ?_⟩
  · have hany : prev.any (fun m => decide (m.id = e.id)) = true := by
      rcases h with ⟨m, hm, hid⟩
      exact List.any_eq_true.mpr ⟨m, hm, decide_eq_true hid⟩
    simp [handleInsert, reconcile, hany]
  · have hany : ¬ prev.any (fun m => decide (m.id = e.id)) = true := by
      intro hc
      rcases List.any_eq_true.mp hc with ⟨m, hm, hid⟩
      exact hd ⟨m, hm, of_decide_eq_true hid⟩
    simp [handleInsert, hp, reconcile, hany]

/-- C1 witness: the amended reconciliation theorem applied at a concrete
matching, non-duplicate event over a timeline of two placeholders. -/
theorem c1_witness :
    handleInsert "A" "B" [pend1, pend2] msgAB =
      [pend1, pend2].filter (fun m => !(isTempId m.id)) ++ [msgAB] :=
  (c1_reconciliation "A" "B" [pend1, pend2] msgAB).2.2 (by decide) (by decide)

/-- C3: reconciliation is idempotent — applying the INSERT handler twice
for the same event yields the same timeline as applying it once, because
the appended message makes the duplicate-identifier guard fire on the
second application. -/
theorem c3_idempotent (cur sel : String) (prev : List Message) (e : Message) :
    handleInsert cur sel (handleInsert cur sel prev e) e =
      handleInsert cur sel prev e := by
  unfold handleInsert
  by_cases hp : pairMatches cur sel e
  · simp only [if_pos hp]
    unfold reconcile
    by_cases hd : prev.any (fun m => decide (m.id = e.id)) = true
    · simp [hd]
    · rw [if_neg hd, if_pos]
      rw [List.any_append]
      simp
  · simp [hp]

/-- C4 counterexample: a duplicate delivery (the event identifier is
already present, so the timeline is unchanged) still invokes the
new-message callback — the duplicate guard protects only the timeline,
refuting the claim that a duplicate delivery does not invoke the callback
a second time. -/
theorem c4_counterexample :
    (handleInsertEvent "B" "A" true [msgFromA] msgFromA).messages =
      [msgFromA] ∧
    (handleInsertEvent "B" "A" true [msgFromA] msgFromA).notified =
      [msgFromA] := by
  decide

/-- C4 (amended): the registered callback is invoked exactly once per
inbound event whose pair matches and whose sender is not the local user —
including duplicate deliveries of an already-present identifier — and is
not invoked otherwise; registering a callback replaces the previous one
rather than stacking it. -/
theorem c4_notification (cur sel : String) (hasCallback : Bool)
    (prev : List Message) (e : Message) (slot : Option String)
    (cb1 cb2 : String) :
    (pairMatches cur sel e → e.sender_id ≠ cur → hasCallback = true →
      (handleInsertEvent cur sel hasCallback prev e).notified = [e]) ∧
    (¬ pairMatches cur sel e →
      (handleInsertEvent cur sel hasCallback prev e).notified = []) ∧
    (e.sender_id = cur →
      (handleInsertEvent cur sel hasCallback prev e).notified = []) ∧
    (hasCallback = false →
      (handleInsertEvent cur sel hasCallback prev e).notified = []) ∧
    setOnNewMessage (setOnNewMessage slot cb1) cb2 = some cb2 := by
  refine ⟨fun hp hs hc => ?_, fun hp => ?_, fun hs => ?_, fun hc => ?_, rfl⟩
  · simp [handleInsertEvent, hp, hs, hc]
  · simp [handleInsertEvent, hp]
  · by_cases hp : pairMatches cur sel e <;> simp [handleInsertEvent, hp, hs]
  · by_cases hp : pairMatches cur sel e <;> simp [handleInsertEvent, hp, hc]

/-- C4 witness: the amended notification theorem applied at a concrete
inbound event from the peer with a callback registered. -/
theorem c4_witness :
    (handleInsertEvent "B" "A" true [] msgFromA).notified = [msgFromA] :=
  (c4_notification "B" "A" true [] msgFromA none "x" "y").1
    (by decide) (by decide) rfl

/-- C2 counterexample: a send of "hi" whose durable insert fails.  The
insert was issued and failed, the rollback restored the empty timeline,
`console.error` ran — but no failure signal reaches the caller (the
source function resolves normally), refuting the claim that the failure
is reported to the caller as a recoverable send error. -/
theorem c2_counterexample :
    (sendMessage (some "A") (some "B") "hi" none 7 true false [] false).insertPayload.isSome = true ∧
    (sendMessage (some "A") (some "B") "hi" none 7 true false [] false).messages = [] ∧
    (sendMessage (some "A") (some "B") "hi" none 7 true false [] false).consoleError = true ∧
    (sendMessage (some "A") (some "B") "hi" none 7 true false [] false).callerSignal = false := by
  decide

/-- C2 (amended): when the durable insert of a proceeding send fails, the
optimistic pending message is removed again and the timeline equals its
state before the send; the failure is only logged to the console, and no
failure signal reaches the caller.  The freshness hypothesis states that
no message already carried the locally minted placeholder identifier. -/
theorem c2_rollback (cur sel : Option String) (text : String)
    (file : Option FileUpload) (now : Nat) (storageOk : Bool)
    (prev : List Message) (u0 : Bool)
    (hfresh : ∀ m ∈ prev, m.id ≠ tempId now)
    (hproceed : (sendMessage cur sel text file now storageOk false prev u0).insertPayload.isSome = true) :
    (sendMessage cur sel text file now storageOk false prev u0).messages = prev ∧
    (sendMessage cur sel text file now storageOk false prev u0).consoleError = true ∧
    (sendMessage cur sel text file now storageOk false prev u0).callerSignal = false := by
  have hk : prev.filter (fun m => !(decide (m.id = tempId now))) = prev := by
    refine List.filter_eq_self.mpr (fun m hm => ?_)
    simp [hfresh m hm]
  have ho : ∀ fd, [mkOptimistic (cur.getD "") (sel.getD "") text now fd].filter
      (fun m => !(decide (m.id = tempId now))) = [] := by
    intro fd
    simp [mkOptimistic]
  unfold sendMessage at hproceed ⊢
  split_ifs at hproceed ⊢ with h1 h2 h3 h4
  · simp at hproceed
  · simp at hproceed
  · simp at hproceed
  · exact h4.elim
  · refine ⟨?_, rfl, rfl⟩
    show (prev ++ [mkOptimistic (cur.getD "") (sel.getD "") text now
        (sendFileData cur file now storageOk)]).filter
        (fun m => !(decide (m.id = tempId now))) = prev
    rw [List.filter_append, hk, ho, List.append_nil]

/-- C2 witness: the amended rollback theorem applied at the concrete
failing send of "hi" from A to B over an empty timeline. -/
theorem c2_witness :
    (sendMessage (some "A") (some "B") "hi" none 7 true false [] false).messages = [] ∧
    (sendMessage (some "A") (some "B") "hi" none 7 true false [] false).consoleError = true ∧
    (sendMessage (some "A") (some "B") "hi" none 7 true false [] false).callerSignal = false :=
  c2_rollback (some "A") (some "B") "hi" none 7 true [] false
    (by decide) (by decide)

/-- C6: a send whose text trims to the empty string and which carries no
attachment is a no-op — the timeline is unchanged, no optimistic message
is created, no durable write is issued, and the uploader is not invoked. -/
theorem c6_blank_noop (cur sel : Option String) (text : String) (now : Nat)
    (storageOk insertOk : Bool) (prev : List Message) (u0 : Bool)
    (hblank : jsTrim text = "") :
    (sendMessage cur sel text none now storageOk insertOk prev u0).messages = prev ∧
    (sendMessage cur sel text none now storageOk insertOk prev u0).insertPayload = none ∧
    (sendMessage cur sel text none now storageOk insertOk prev u0).optimistic = none ∧
    (sendMessage cur sel text none now storageOk insertOk prev u0).uploadAttempted = false := by
  unfold sendMessage
  split_ifs with h1 h2 <;> simp_all

/-- C6 witness: the blank no-op theorem applied at a whitespace-only text
with no attachment over a one-message timeline. -/
theorem c6_witness :
    (sendMessage (some "A") (some "B") "   " none 1 true true [msgAB] false).messages = [msgAB] ∧
    (sendMessage (some "A") (some "B") "   " none 1 true true [msgAB] false).insertPayload = none ∧
    (sendMessage (some "A") (some "B") "   " none 1 true true [msgAB] false).optimistic = none ∧
    (sendMessage (some "A") (some "B") "   " none 1 true true [msgAB] false).uploadAttempted = false :=
  c6_blank_noop (some "A") (some "B") "   " 1 true true [msgAB] false (by decide)

/-- C7: for a send carrying an attachment whose upload fails
(`storageOk = false`), the uploader is invoked; if the text is blank the
send is abandoned entirely (timeline unchanged, no message, no durable
write), and if the text is non-blank the send proceeds as a text-only
message whose insert row has all attachment fields absent. -/
theorem c7_upload_fallback (cur sel : Option String) (text : String)
    (f : FileUpload) (now : Nat) (insertOk : Bool) (prev : List Message)
    (u0 : Bool) (hcur : jsFalsy cur = false) (hsel : jsFalsy sel = false) :
    (sendMessage cur sel text (some f) now false insertOk prev u0).uploadAttempted = true ∧
    (jsTrim text = "" →
      (sendMessage cur sel text (some f) now false insertOk prev u0).messages = prev ∧
      (sendMessage cur sel text (some f) now false insertOk prev u0).insertPayload = none ∧
      (sendMessage cur sel text (some f) now false insertOk prev u0).optimistic = none) ∧
    (jsTrim text ≠ "" →
      (sendMessage cur sel text (some f) now false insertOk prev u0).insertPayload =
        some { sender_id := cur.getD "", receiver_id := sel.getD "",
               text := jsTrim text, file_url := none, file_name := none,
               file_type := none }) := by
  have hfd : sendFileData cur (some f) now false = none := by
    simp [sendFileData, uploadFile, hcur]
  unfold sendMessage
  split_ifs with h1 h2 h3 h4
  · simp [hcur, hsel] at h1
  · simp at h2
  · rcases h3 with ⟨-, -, hblank⟩
    exact ⟨rfl, fun _ => ⟨rfl, rfl, rfl⟩, fun hnb => absurd hblank hnb⟩
  · have hnb : jsTrim text ≠ "" := by
      intro hb
      exact h3 ⟨rfl, hfd, hb⟩
    exact ⟨rfl, fun hb => absurd hb hnb,
      fun _ => by simp [mkInsertRow, hfd]⟩
  · have hnb : jsTrim text ≠ "" := by
      intro hb
      exact h3 ⟨rfl, hfd, hb⟩
    exact ⟨rfl, fun hb => absurd hb hnb,
      fun _ => by simp [mkInsertRow, hfd]⟩

/-- C7 witness: the upload-fallback theorem applied at a concrete failing
upload with non-blank text. -/
theorem c7_witness :
    (sendMessage (some "A") (some "B") "hello" (some ⟨"pic.png", "image/png"⟩) 2 false true [] false).uploadAttempted = true ∧
    (jsTrim "hello" = "" →
      (sendMessage (some "A") (some "B") "hello" (some ⟨"pic.png", "image/png"⟩) 2 false true [] false).messages = [] ∧
      (sendMessage (some "A") (some "B") "hello" (some ⟨"pic.png", "image/png"⟩) 2 false true [] false).insertPayload = none ∧
      (sendMessage (some "A") (some "B") "hello" (some ⟨"pic.png", "image/png"⟩) 2 false true [] false).optimistic = none) ∧
    (jsTrim "hello" ≠ "" →
      (sendMessage (some "A") (some "B") "hello" (some ⟨"pic.png", "image/png"⟩) 2 false true [] false).insertPayload =
        some { sender_id := (some "A").getD "", receiver_id := (some "B").getD "",
               text := jsTrim "hello", file_url := none, file_name := none,
               file_type := none }) :=
  c7_upload_fallback (some "A") (some "B") "hello" ⟨"pic.png", "image/png"⟩ 2
    true [] false (by decide) (by decide)

/-- C10: whenever a send proceeds to the durable write, the row handed to
the insert and the optimistic pending message both carry the text of the
call trimmed of leading and trailing whitespace, and both carry the
active pair as sender and receiver. -/
theorem c10_trimmed (cur sel : Option String) (text : String)
    (file : Option FileUpload) (now : Nat) (storageOk insertOk : Bool)
    (prev : List Message) (u0 : Bool) (row : InsertRow)
    (hrow : (sendMessage cur sel text file now storageOk insertOk prev u0).insertPayload = some row) :
    row.text = jsTrim text ∧ row.sender_id = cur.getD "" ∧
    row.receiver_id = sel.getD "" ∧
    ∃ opt, (sendMessage cur sel text file now storageOk insertOk prev u0).optimistic = some opt ∧
      opt.text = jsTrim text ∧ opt.sender_id = cur.getD "" ∧
      opt.receiver_id = sel.getD "" := by
  unfold sendMessage at hrow ⊢
  split_ifs at hrow ⊢ with h1 h2 h3 h4
  all_goals try simp at hrow
  all_goals
    have hr : mkInsertRow (cur.getD "") (sel.getD "") text
        (sendFileData cur file now storageOk) = row := by simpa using hrow
  all_goals subst hr
  all_goals
    exact ⟨rfl, rfl, rfl,
      mkOptimistic (cur.getD "") (sel.getD "") text now
        (sendFileData cur file now storageOk), rfl, rfl, rfl, rfl⟩

/-- C10 witness: the trimming theorem applied at the concrete proceeding
send of " hi " from A to B. -/
theorem c10_witness :
    rowHi.text = jsTrim " hi " ∧ rowHi.sender_id = (some "A").getD "" ∧
    rowHi.receiver_id = (some "B").getD "" ∧
    ∃ opt, (sendMessage (some "A") (some "B") " hi " none 3 true true [] false).optimistic = some opt ∧
      opt.text = jsTrim " hi " ∧ opt.sender_id = (some "A").getD "" ∧
      opt.receiver_id = (some "B").getD "" :=
  c10_trimmed (some "A") (some "B") " hi " none 3 true true [] false rowHi
    (by decide)

/-! Helper lemmas for the seen-flag monotonicity claim. -/

lemma seenPreserved_self (l : List Message) : SeenPreserved l l :=
  fun _ hm _ => Or.inl hm

lemma seenPreserved_append (l xs : List Message) : SeenPreserved l (l ++ xs) :=
  fun _ hm _ => Or.inl (List.mem_append_left xs hm)

lemma seenPreserved_filter_id (l xs : List Message) (tid : String) :
    SeenPreserved l ((l ++ xs).filter (fun m => !(decide (m.id = tid)))) := by
  intro m hm _
  by_cases hid : m.id = tid
  · refine Or.inr (fun m2 hm2 => ?_)
    have h2 := (List.mem_filter.mp hm2).2
    simp only [Bool.not_eq_eq_eq_not, Bool.not_true, decide_eq_false_iff_not] at h2
    rw [hid]
    exact h2
  · exact Or.inl (List.mem_filter.mpr ⟨List.mem_append_left xs hm, by simp [hid]⟩)

lemma seenPreserved_reconcile (prev : List Message) (e : Message) :
    SeenPreserved prev (reconcile prev e) := by
  intro m hm hseen
  unfold reconcile
  split
  · exact Or.inl hm
  · next hany =>
    by_cases htemp : isTempId m.id = true
    · refine Or.inr (fun m2 hm2 => ?_)
      rcases List.mem_append.mp hm2 with h2 | h2
      · have hf := (List.mem_filter.mp h2).2
        simp only [Bool.not_eq_eq_eq_not, Bool.not_true] at hf
        intro heq
        rw [heq, htemp] at hf
        simp at hf
      · have h2e : m2 = e := by simpa using h2
        subst h2e
        intro heq
        exact hany (List.any_eq_true.mpr ⟨m, hm, decide_eq_true heq.symm⟩)
    · exact Or.inl (List.mem_append_left _
        (List.mem_filter.mpr ⟨hm, by simp [htemp]⟩))

lemma markSeenRow_of_seen (cur sel : String) (m : Message)
    (h : m.seen = true) : markSeenRow cur sel m = m := by
  unfold markSeenRow
  rw [if_neg]
  rintro ⟨-, -, hf⟩
  rw [h] at hf
  simp at hf

/-- C5: the seen flag is monotonic.  Across every synchronizer operation —
a send (any oracle outcome), reconciliation of an inbound event, and the
seen-marking bulk update — a message whose seen flag is true is never
re-added with the flag reset: it either survives unchanged or no message
with its identifier remains.  Moreover the seen-marking update changes a
row only by flipping seen from false to true, and only for rows sent by
the peer to the local user. -/
theorem c5_seen_monotonic (cur sel : String) (ocur osel : Option String)
    (text : String) (file : Option FileUpload) (now : Nat)
    (storageOk insertOk : Bool) (u0 hasCb : Bool)
    (prev rows : List Message) (e : Message) :
    SeenPreserved prev
      (sendMessage ocur osel text file now storageOk insertOk prev u0).messages ∧
    SeenPreserved prev (handleInsertEvent cur sel hasCb prev e).messages ∧
    SeenPreserved rows (markAsSeenUpdate cur sel rows) ∧
    (∀ m : Message, markSeenRow cur sel m = m ∨
      (m.sender_id = sel ∧ m.receiver_id = cur ∧ m.seen = false ∧
        markSeenRow cur sel m = { m with seen := true })) := by
  refine ⟨?_, ?_, ?_, ?_⟩
  · unfold sendMessage
    split_ifs
    · exact seenPreserved_self prev
    · exact seenPreserved_self prev
    · exact seenPreserved_self prev
    · exact seenPreserved_append prev _
    · exact seenPreserved_filter_id prev _ (tempId now)
  · unfold handleInsertEvent
    split
    · exact seenPreserved_reconcile prev e
    · exact seenPreserved_self prev
  · intro m hm hseen
    exact Or.inl (List.mem_map.mpr ⟨m, hm, markSeenRow_of_seen cur sel m hseen⟩)
  · intro m
    unfold markSeenRow
    by_cases hc : m.sender_id = sel ∧ m.receiver_id = cur ∧ m.seen = false
    · exact Or.inr ⟨hc.1, hc.2.1, hc.2.2, by rw [if_pos hc]⟩
    · exact Or.inl (by rw [if_neg hc])

/-- C5 witness: the monotonicity theorem applied at the seen-marking
update of a single already-seen message from the peer. -/
theorem c5_witness :
    msgSeen ∈ markAsSeenUpdate "B" "A" [msgSeen] ∨
      ∀ m2 ∈ markAsSeenUpdate "B" "A" [msgSeen], m2.id ≠ msgSeen.id :=
  (c5_seen_monotonic "B" "A" (some "A") (some "B") "x" none 0 true true false
      true [] [msgSeen] msgAB).2.2.1 msgSeen (by decide) (by decide)

/-- C8: when the guard passes, a failed history fetch preserves the prior
timeline and clears the loading flag, and a successful fetch replaces the
timeline wholesale by the history of the pair ordered ascending by
creation time (and clears the loading flag). -/
theorem c8_load (cur sel : Option String) (db prev : List Message)
    (l0 : Bool) (hcur : jsFalsy cur = false) (hsel : jsFalsy sel = false) :
    ((loadMessages cur sel db false prev l0).messages = prev ∧
      (loadMessages cur sel db false prev l0).loading = false) ∧
    ((loadMessages cur sel db true prev l0).messages =
        historyQuery (cur.getD "") (sel.getD "") db ∧
      List.Sorted (fun a b => a.created_at ≤ b.created_at)
        (loadMessages cur sel db true prev l0).messages ∧
      (loadMessages cur sel db true prev l0).loading = false) := by
  have hguard : ¬ (jsFalsy cur = true ∨ jsFalsy sel = true) := by
    simp [hcur, hsel]
  constructor
  · unfold loadMessages
    rw [if_neg hguard]
    exact ⟨rfl, rfl⟩
  · unfold loadMessages
    rw [if_neg hguard]
    refine ⟨rfl, ?_, rfl⟩
    show List.Sorted (fun a b => a.created_at ≤ b.created_at)
      (historyQuery (cur.getD "") (sel.getD "") db)
    unfold historyQuery
    exact List.sorted_insertionSort _ _

/-- C8 witness: the load theorem applied at a concrete store holding two
messages of the pair, with a nonempty prior timeline. -/
theorem c8_witness :
    ((loadMessages (some "A") (some "B") [msgAB, msgFromA] false [pend1] true).messages = [pend1] ∧
      (loadMessages (some "A") (some "B") [msgAB, msgFromA] false [pend1] true).loading = false) ∧
    ((loadMessages (some "A") (some "B") [msgAB, msgFromA] true [pend1] true).messages =
        historyQuery ((some "A").getD "") ((some "B").getD "") [msgAB, msgFromA] ∧
      List.Sorted (fun a b => a.created_at ≤ b.created_at)
        (loadMessages (some "A") (some "B") [msgAB, msgFromA] true [pend1] true).messages ∧
      (loadMessages (some "A") (some "B") [msgAB, msgFromA] true [pend1] true).loading = false) :=
  c8_load (some "A") (some "B") [msgAB, msgFromA] [pend1] true
    (by decide) (by decide)

/-! Helper lemmas for the typing derivation claim. -/

lemma mem_setAdd (s : List String) (x y : String) :
    y ∈ setAdd s x ↔ y ∈ s ∨ y = x := by
  unfold setAdd
  by_cases hx : x ∈ s
  · rw [if_pos hx]
    constructor
    · exact Or.inl
    · rintro (h | rfl)
      · exact h
      · exact hx
  · rw [if_neg hx]
    simp

lemma mem_foldl_addTyping (cur : String) (l : List PresencePayload)
    (acc : List String) (y : String) :
    y ∈ l.foldl (addTyping cur) acc ↔
      y ∈ acc ∨ ∃ p ∈ l, p.profileId = y ∧ p.isTyping = true ∧ y ≠ cur := by
  induction l generalizing acc with
  | nil => simp
  | cons p rest ih =>
    rw [List.foldl_cons, ih]
    unfold addTyping
    by_cases hc : p.isTyping = true ∧ p.profileId ≠ cur
    · rw [if_pos hc, mem_setAdd]
      constructor
      · rintro ((h | rfl) | ⟨q, hq, h1, h2, h3⟩)
        · exact Or.inl h
        · exact Or.inr ⟨p, List.mem_cons_self p rest, rfl, hc.1, hc.2⟩
        · exact Or.inr ⟨q, List.mem_cons_of_mem p hq, h1, h2, h3⟩
      · rintro (h | ⟨q, hq, h1, h2, h3⟩)
        · exact Or.inl (Or.inl h)
        · rcases List.mem_cons.mp hq with rfl | hq2
          · exact Or.inl (Or.inr h1.symm)
          · exact Or.inr ⟨q, hq2, h1, h2, h3⟩
    · rw [if_neg hc]
      constructor
      · rintro (h | ⟨q, hq, h1, h2, h3⟩)
        · exact Or.inl h
        · exact Or.inr ⟨q, List.mem_cons_of_mem p hq, h1, h2, h3⟩
      · rintro (h | ⟨q, hq, h1, h2, h3⟩)
        · exact Or.inl h
        · rcases List.mem_cons.mp hq with rfl | hq2
          · exact absurd ⟨h2, by rw [h1]; exact h3⟩ hc
          · exact Or.inr ⟨q, hq2, h1, h2, h3⟩

lemma mem_foldl_typing (cur : String) (state : List (List PresencePayload))
    (acc : List String) (y : String) :
    y ∈ state.foldl (fun a presences => presences.foldl (addTyping cur) a) acc ↔
      y ∈ acc ∨ ∃ l ∈ state, ∃ p ∈ l,
        p.profileId = y ∧ p.isTyping = true ∧ y ≠ cur := by
  induction state generalizing acc with
  | nil => simp
  | cons l rest ih =>
    rw [List.foldl_cons, ih, mem_foldl_addTyping]
    constructor
    · rintro ((h | ⟨p, hp, h1, h2, h3⟩) | ⟨l2, hl2, p, hp, h1, h2, h3⟩)
      · exact Or.inl h
      · exact Or.inr ⟨l, List.mem_cons_self l rest, p, hp, h1, h2, h3⟩
      · exact Or.inr ⟨l2, List.mem_cons_of_mem l hl2, p, hp, h1, h2, h3⟩
    · rintro (h | ⟨l2, hl2, p, hp, h1, h2, h3⟩)
      · exact Or.inl (Or.inl h)
      · rcases List.mem_cons.mp hl2 with rfl | hl3
        · exact Or.inl (Or.inr ⟨p, hp, h1, h2, h3⟩)
        · exact Or.inr ⟨l2, hl3, p, hp, h1, h2, h3⟩

/-- C9: the derived typing set contains exactly the participant ids of
the snapshot that signal typing, the local user excluded; in particular
the snapshot in which A types and B does not, viewed by B, derives the
set containing exactly A. -/
theorem c9_typing (cur y : String) (state : List (List PresencePayload)) :
    (y ∈ deriveTyping cur state ↔
      (∃ l ∈ state, ∃ p ∈ l, p.profileId = y ∧ p.isTyping = true) ∧
        y ≠ cur) ∧
    deriveTyping "B" [[{ profileId := "A", isTyping := true }],
      [{ profileId := "B", isTyping := false }]] = ["A"] := by
  refine ⟨?_, by decide⟩
  unfold deriveTyping
  rw [mem_foldl_typing]
  simp only [List.not_mem_nil, false_or]
  constructor
  · rintro ⟨l, hl, p, hp, h1, h2, h3⟩
    exact ⟨⟨l, hl, p, hp, h1, h2⟩, h3⟩
  · rintro ⟨⟨l, hl, p, hp, h1, h2⟩, h3⟩
    exact ⟨l, hl, p, hp, h1, h2, h3⟩

end SwiftChat
